import Mathlib

/-!
Verification of the Bastar Police crime-dashboard pipeline (`app.py`).

The dashboard is a pandas/Streamlit script.  We embed the pipeline shallowly:

* a dataframe is a `List Record`; a nullable column entry is an `Option`;
* timestamps are calendar dates `Date` (year/month/day); pandas timestamp
  arithmetic at day granularity is integer arithmetic on epoch-day numbers,
  computed by the standard civil-calendar conversion `daysFromCivil`;
* `Series.astype(str)` renders a missing value as the string `"nan"`
  (for datetimes, `"NaT"`), which the embedding reproduces explicitly;
* boolean masks become `List.filter`, `Series.value_counts` becomes
  `valueCounts`, `groupby(...).size()` with its default ascending key sort
  becomes `monthlyCounts` built on `List.insertionSort`;
* `Series.mean()` (which skips missing values) becomes `seriesMean` over `ℚ`.
-/

/-- A calendar date.  `month` and `day` are 1-based; theorems that need
calendar validity take `1 ≤ month ∧ month ≤ 12` as hypotheses. -/
structure Date where
  year : Nat
  month : Nat
  day : Nat
deriving DecidableEq, Repr

/-- Number of days from 1970-01-01 (the pandas epoch) to the civil date
`y-m-d`, by the standard civil-from-days algorithm (proleptic Gregorian
calendar), as used by pandas timestamp arithmetic at day granularity. -/
def daysFromCivil (y m d : Nat) : Int :=
  let yAdj := if m ≤ 2 then y - 1 else y
  let era := yAdj / 400
  let yoe := yAdj % 400
  let mp := (m + 9) % 12
  let doy := (153 * mp + 2) / 5 + d - 1
  let doe := yoe * 365 + yoe / 4 - yoe / 100 + doy
  (era : Int) * 146097 + (doe : Int) - 719468

/-- Epoch-day number of a `Date`. -/
def epochOf (d : Date) : Int :=
  daysFromCivil d.year d.month d.day

/-- One row of the loaded dataframe, after column normalization and date
parsing (`load_data`).  Nullable columns are `Option`; a date column entry
that failed to parse is `none` (pandas `NaT`). -/
structure Record where
  case_id : Nat
  fir_number : Option String
  police_station : Option String
  crime_type : Option String
  date_reported : Option Date
  arrest_date : Option Date
  chargesheet_date : Option Date
  accused_arrested : Option String
  chargesheet_filed : Option String
  status : Option String
  location : Option String
deriving DecidableEq, Repr

/-- `str.lower()` on a string, character by character (ASCII case
mapping, as in Lean's `Char.toLower`). -/
def strLower (s : String) : String :=
  ⟨s.data.map Char.toLower⟩

/-- `series.astype(str).str.lower()` applied to a flag column entry:
a missing value is rendered as the string `"nan"`. -/
def flagStr (o : Option String) : String :=
  match o with
  | some s => strLower s
  | none => "nan"

/-- The sidebar filter state: the selected date range (inclusive), the
selected police stations, and the selected crime types. -/
structure Criteria where
  startDate : Date
  endDate : Date
  stations : List String
  crimes : List String
deriving DecidableEq, Repr

/-- The boolean mask of the standard filter (`filtered_df`): the date
comparison against a missing `date_reported` is false (pandas comparison
with `NaT`), and `isin` on a missing category value is false. -/
def keepRecord (c : Criteria) (r : Record) : Bool :=
  (match r.date_reported with
   | some d => decide (epochOf c.startDate ≤ epochOf d) && decide (epochOf d ≤ epochOf c.endDate)
   | none => false)
  && (match r.police_station with
      | some s => c.stations.contains s
      | none => false)
  && (match r.crime_type with
      | some s => c.crimes.contains s
      | none => false)

/-- `filtered_df`: the standard station/crime/date filter. -/
def filteredDf (c : Criteria) (rs : List Record) : List Record :=
  rs.filter (keepRecord c)

/-- `len(df)`: the raw record count of a dataframe. -/
def totalCases (rs : List Record) : Nat :=
  rs.length

/-- The default station selection: `df['police_station'].dropna().unique()`. -/
def defaultStations (rs : List Record) : List String :=
  (rs.filterMap Record.police_station).dedup

/-- The default crime-type selection: `df['crime_type'].dropna().unique()`. -/
def defaultCrimes (rs : List Record) : List String :=
  (rs.filterMap Record.crime_type).dedup

lemma mem_filteredDf {c : Criteria} {rs : List Record} {r : Record} :
    r ∈ filteredDf c rs ↔ r ∈ rs ∧ keepRecord c r = true := by
  simp [filteredDf, List.mem_filter]

/-- **C6** — A record with a null `date_reported` is excluded from the
standard filtered output for every date range, yet still counts toward the
unfiltered dataset total; and for a record with a present `date_reported`,
membership in the filtered output is characterised by inclusive range
bounds (a record reported exactly on `start` or exactly on `end` passes the
date test). -/
theorem C6_null_date_excluded_bounds_inclusive (c : Criteria) (rs pre post : List Record)
    (r : Record) :
    (r.date_reported = none → r ∉ filteredDf c rs) ∧
    (totalCases (pre ++ r :: post) = totalCases (pre ++ post) + 1) ∧
    (∀ d : Date, r.date_reported = some d →
      (r ∈ filteredDf c rs ↔ r ∈ rs ∧
        (epochOf c.startDate ≤ epochOf d ∧ epochOf d ≤ epochOf c.endDate) ∧
        (∃ s, r.police_station = some s ∧ s ∈ c.stations) ∧
        (∃ t, r.crime_type = some t ∧ t ∈ c.crimes))) := by
  refine ⟨?_, ?_, ?_⟩
  · intro hnone hmem
    rcases mem_filteredDf.mp hmem with ⟨-, hkeep⟩
    rw [keepRecord, hnone] at hkeep
    simp at hkeep
  · simp [totalCases]
    omega
  · intro d hd
    rw [mem_filteredDf, keepRecord, hd]
    cases hps : r.police_station with
    | none => simp
    | some s =>
      cases hct : r.crime_type with
      | none => simp
      | some t =>
        simp [List.contains_iff_exists_mem_beq, and_assoc]

/-- **C9** — The standard filter is idempotent: filtering an already
filtered record set with the same criteria changes nothing. -/
theorem C9_filter_idempotent (c : Criteria) (rs : List Record) :
    filteredDf c (filteredDf c rs) = filteredDf c rs := by
  simp [filteredDf, List.filter_filter]

/-- **C10** — A record with a null `police_station` or a null `crime_type`
is excluded from the standard filtered output for every criteria, in
particular for the default selection (all distinct non-null stations and
crime types of the dataset). -/
theorem C10_null_category_excluded (c : Criteria) (rs : List Record) (r : Record)
    (h : r.police_station = none ∨ r.crime_type = none) :
    r ∉ filteredDf c rs ∧
      ∀ lo hi : Date,
        r ∉ filteredDf ⟨lo, hi, defaultStations rs, defaultCrimes rs⟩ rs := by
  have hkeep : ∀ c' : Criteria, keepRecord c' r = false := by
    intro c'
    rcases h with h | h <;> rw [keepRecord, h] <;> simp
  constructor
  · intro hmem
    rcases mem_filteredDf.mp hmem with ⟨-, hk⟩
    rw [hkeep] at hk
    exact Bool.false_ne_true hk
  · intro lo hi hmem
    rcases mem_filteredDf.mp hmem with ⟨-, hk⟩
    rw [hkeep] at hk
    exact Bool.false_ne_true hk

/-- Closed witness for C6 at a concrete dataset: a null-date record is
dropped by the filter but counted in the total, and a record reported
exactly on the start date passes. -/
theorem C6_witness :
    let rNull : Record :=
      ⟨1, some "F1", some "S1", some "Theft", none, none, none, none, none, none, none⟩
    let rEdge : Record :=
      ⟨2, some "F2", some "S1", some "Theft", some ⟨2024, 1, 1⟩, none, none, none, none,
        none, none⟩
    let c : Criteria := ⟨⟨2024, 1, 1⟩, ⟨2024, 12, 31⟩, ["S1"], ["Theft"]⟩
    rNull ∉ filteredDf c [rNull, rEdge] ∧
      totalCases ([] ++ rNull :: [rEdge]) = totalCases ([] ++ [rEdge]) + 1 ∧
      rEdge ∈ filteredDf c [rNull, rEdge] := by
  intro rNull rEdge c
  refine ⟨(C6_null_date_excluded_bounds_inclusive c [rNull, rEdge] [] [rEdge] rNull).1 rfl,
    (C6_null_date_excluded_bounds_inclusive c [rNull, rEdge] [] [rEdge] rNull).2.1, ?_⟩
  exact ((C6_null_date_excluded_bounds_inclusive c [rNull, rEdge] [] [rEdge]
    rEdge).2.2 ⟨2024, 1, 1⟩ rfl).mpr (by decide)

/-- Closed witness for C10 at a concrete record with a null station. -/
theorem C10_witness :
    let rNull : Record :=
      ⟨1, some "F1", none, some "Theft", some ⟨2024, 1, 1⟩, none, none, none, none, none,
        none⟩
    let c : Criteria := ⟨⟨2024, 1, 1⟩, ⟨2024, 12, 31⟩, ["S1"], ["Theft"]⟩
    rNull ∉ filteredDf c [rNull] := by
  intro rNull c
  exact (C10_null_category_excluded c [rNull] rNull (Or.inl rfl)).1

/-- `df['cs_due'] = df['date_reported'] + pd.to_timedelta(60, unit='d')`:
the chargesheet due date as an epoch-day number, missing when
`date_reported` is missing. -/
def csDue (r : Record) : Option Int :=
  r.date_reported.map (fun d => epochOf d + 60)

/-- `df['days_left'] = (df['cs_due'] - today).dt.days` at day granularity:
the number of days from the reference date to the due date. -/
def daysLeft (today : Date) (r : Record) : Option Int :=
  (csDue r).map (fun due => due - epochOf today)

/-- The mask of the "Chargesheet Due Soon" view: `chargesheet_filed`
(as lowercased string, null rendered `"nan"`) differs from `"yes"`, and
`days_left` is between 0 and 10; a comparison against a missing
`days_left` is false. -/
def dueSoonMask (today : Date) (r : Record) : Bool :=
  (flagStr r.chargesheet_filed != "yes")
  && (match daysLeft today r with
      | some dl => decide (dl ≤ 10) && decide (0 ≤ dl)
      | none => false)

/-- `due_soon_df`: the records listed by the "Chargesheet Due Soon" view. -/
def dueSoonDf (today : Date) (rs : List Record) : List Record :=
  rs.filter (dueSoonMask today)

/-- The mask of the "Accused Not Arrested (45+ days)" view:
`accused_arrested` differs from `"yes"` and the report is more than 45 days
old; a comparison against a missing `date_reported` is false. -/
def unarrestedMask (today : Date) (r : Record) : Bool :=
  (flagStr r.accused_arrested != "yes")
  && (match r.date_reported with
      | some d => decide (45 < epochOf today - epochOf d)
      | none => false)

/-- `unarrested_df`: the records listed by the "Accused Not Arrested" view. -/
def unarrestedDf (today : Date) (rs : List Record) : List Record :=
  rs.filter (unarrestedMask today)

/-- **C4** — The chargesheet-due-soon view selects a record iff its
`chargesheet_filed` flag is not "yes" (case-insensitively, nulls counting
as not-"yes") and its `days_left` — the due date `date_reported + 60 days`
minus the reference date — is defined and lies in `[0, 10]`; and the
concrete arithmetic of the spec holds: a report on 2024-01-01 is due
2024-03-01, and on 2024-02-25 five days remain. -/
theorem C4_due_soon_selection (today : Date) (rs : List Record) (r : Record) :
    (r ∈ dueSoonDf today rs ↔ r ∈ rs ∧ flagStr r.chargesheet_filed ≠ "yes" ∧
      ∃ dl, daysLeft today r = some dl ∧ 0 ≤ dl ∧ dl ≤ 10) ∧
    (∀ r0 : Record, r0.date_reported = some ⟨2024, 1, 1⟩ →
      csDue r0 = some (epochOf ⟨2024, 3, 1⟩) ∧
      daysLeft ⟨2024, 2, 25⟩ r0 = some 5) := by
  constructor
  · rw [dueSoonDf, List.mem_filter, dueSoonMask]
    constructor
    · rintro ⟨hmem, hand⟩
      rw [Bool.and_eq_true] at hand
      rcases hand with ⟨hflag, hdl⟩
      refine ⟨hmem, by simpa using hflag, ?_⟩
      cases hdl' : daysLeft today r with
      | none => rw [hdl'] at hdl; cases hdl
      | some dl =>
        rw [hdl'] at hdl
        rw [Bool.and_eq_true] at hdl
        rcases hdl with ⟨h10, h0⟩
        exact ⟨dl, rfl, of_decide_eq_true h0, of_decide_eq_true h10⟩
    · rintro ⟨hmem, hflag, dl, hdl, h0, h10⟩
      refine ⟨hmem, ?_⟩
      rw [hdl]
      simp [hflag, h0, h10]
  · intro r0 h0
    refine ⟨?_, ?_⟩ <;> simp only [csDue, daysLeft, h0] <;> try decide

/-- **C5** — The unarrested-beyond-45-days view selects a record iff its
`accused_arrested` flag is not "yes" (case-insensitively, nulls counting as
not-"yes") and more than 45 days have passed since `date_reported`; a
record with a missing `date_reported` is never selected, and the selection
predicate is a total function on records (no error). -/
theorem C5_unarrested_selection (today : Date) (rs : List Record) (r : Record) :
    (r ∈ unarrestedDf today rs ↔ r ∈ rs ∧ flagStr r.accused_arrested ≠ "yes" ∧
      ∃ d, r.date_reported = some d ∧ 45 < epochOf today - epochOf d) ∧
    (r.date_reported = none → r ∉ unarrestedDf today rs) := by
  have hiff : r ∈ unarrestedDf today rs ↔ r ∈ rs ∧ flagStr r.accused_arrested ≠ "yes" ∧
      ∃ d, r.date_reported = some d ∧ 45 < epochOf today - epochOf d := by
    rw [unarrestedDf, List.mem_filter, unarrestedMask]
    cases hd : r.date_reported with
    | none => simp [hd]
    | some d =>
      simp [hd]
  refine ⟨hiff, ?_⟩
  intro hnone hmem
  rcases hiff.mp hmem with ⟨-, -, d, hd, -⟩
  rw [hnone] at hd
  cases hd

/-- Closed witness for C5: a concrete unarrested 46-day-old case is
selected, and a null-date record is not. -/
theorem C5_witness :
    let today : Date := ⟨2024, 2, 16⟩
    let rOld : Record :=
      ⟨1, some "F1", some "S1", some "Theft", some ⟨2024, 1, 1⟩, none, none, some "No",
        none, none, none⟩
    let rNull : Record :=
      ⟨2, some "F2", some "S1", some "Theft", none, none, none, some "No", none, none,
        none⟩
    rOld ∈ unarrestedDf today [rOld, rNull] ∧ rNull ∉ unarrestedDf today [rOld, rNull] := by
  intro today rOld rNull
  constructor
  · exact (C5_unarrested_selection today [rOld, rNull] rOld).1.mpr
      ⟨by decide, by decide, ⟨2024, 1, 1⟩, rfl, by decide⟩
  · exact (C5_unarrested_selection today [rOld, rNull] rNull).2 rfl

/-- Closed witness for C4: the spec's concrete due-date arithmetic, and a
concrete record five days from its deadline is selected. -/
theorem C4_witness :
    let today : Date := ⟨2024, 2, 25⟩
    let r0 : Record :=
      ⟨1, some "F1", some "S1", some "Theft", some ⟨2024, 1, 1⟩, none, none, none,
        some "No", none, none⟩
    csDue r0 = some (epochOf ⟨2024, 3, 1⟩) ∧ daysLeft today r0 = some 5 ∧
      r0 ∈ dueSoonDf today [r0] := by
  intro today r0
  refine ⟨((C4_due_soon_selection today [r0] r0).2 r0 rfl).1,
    ((C4_due_soon_selection today [r0] r0).2 r0 rfl).2, ?_⟩
  exact (C4_due_soon_selection today [r0] r0).1.mpr
    ⟨by decide, by decide, 5, ((C4_due_soon_selection today [r0] r0).2 r0 rfl).2,
      by decide, by decide⟩

/-- The `season_map` dictionary of the source, as an association list. -/
def season_map : List (Nat × String) :=
  [(12, "Winter"), (1, "Winter"), (2, "Winter"),
   (3, "Spring"), (4, "Spring"), (5, "Summer"),
   (6, "Summer"), (7, "Monsoon"), (8, "Monsoon"), (9, "Monsoon"),
   (10, "Autumn"), (11, "Autumn")]

/-- `Series.map(season_map)`: dictionary lookup, missing key ↦ missing. -/
def seasonOf (m : Nat) : Option String :=
  season_map.lookup m

/-- The spec's season table, written from the spec's words, to compare with
the source's dictionary. -/
def seasonSpecTable (m : Nat) : Option String :=
  if m = 12 ∨ m = 1 ∨ m = 2 then some "Winter"
  else if m = 3 ∨ m = 4 then some "Spring"
  else if m = 5 ∨ m = 6 then some "Summer"
  else if m = 7 ∨ m = 8 ∨ m = 9 then some "Monsoon"
  else if m = 10 ∨ m = 11 then some "Autumn"
  else none

/-- **C7** — On every calendar month 1–12 the season derivation is defined
and agrees with the spec's fixed five-season table; hence the month of
every record's present `date_reported` maps to exactly one season. -/
theorem C7_season_total_matches_table (m : Nat) (h1 : 1 ≤ m) (h2 : m ≤ 12) :
    seasonOf m = seasonSpecTable m ∧ (seasonOf m).isSome = true ∧
      ∀ (r : Record) (d : Date), r.date_reported = some d → d.month = m →
        ∃ s, seasonOf d.month = some s := by
  have htab : seasonOf m = seasonSpecTable m ∧ (seasonOf m).isSome = true := by
    interval_cases m <;> exact ⟨rfl, rfl⟩
  refine ⟨htab.1, htab.2, ?_⟩
  intro r d hrd hdm
  rw [hdm]
  exact Option.isSome_iff_exists.mp htab.2

/-- Closed witness for C7 at the spec's sample months 1, 7, 11. -/
theorem C7_witness :
    seasonOf 1 = some "Winter" ∧ seasonOf 7 = some "Monsoon" ∧
      seasonOf 11 = some "Autumn" ∧ seasonOf 1 = seasonSpecTable 1 ∧
      seasonOf 7 = seasonSpecTable 7 ∧ seasonOf 11 = seasonSpecTable 11 :=
  ⟨by decide, by decide, by decide,
    (C7_season_total_matches_table 1 (by decide) (by decide)).1,
    (C7_season_total_matches_table 7 (by decide) (by decide)).1,
    (C7_season_total_matches_table 11 (by decide) (by decide)).1⟩

/-- `(filtered_df['arrest_date'] - filtered_df['date_reported']).dt.days`:
the FIR-to-arrest lag in days, missing unless both dates are present. -/
def firToArrest (r : Record) : Option Int :=
  match r.arrest_date, r.date_reported with
  | some a, some d => some (epochOf a - epochOf d)
  | _, _ => none

/-- `(filtered_df['chargesheet_date'] - filtered_df['arrest_date']).dt.days`:
the arrest-to-chargesheet lag in days, missing unless both dates are
present. -/
def arrestToChargesheet (r : Record) : Option Int :=
  match r.chargesheet_date, r.arrest_date with
  | some cs, some a => some (epochOf cs - epochOf a)
  | _, _ => none

/-- The running (sum, count) over the non-missing entries of a series, as
`Series.mean()` accumulates them (missing entries skipped). -/
def meanAcc : List (Option Int) → Int × Nat
  | [] => (0, 0)
  | none :: rest => meanAcc rest
  | some v :: rest => ((meanAcc rest).1 + v, (meanAcc rest).2 + 1)

/-- `Series.mean()`: sum of the present values over their count; `NaN`
(here `none`) for an all-missing series. -/
def seriesMean (vals : List (Option Int)) : Option ℚ :=
  if (meanAcc vals).2 = 0 then none
  else some (((meanAcc vals).1 : ℚ) / ((meanAcc vals).2 : ℚ))

/-- `avg_fir_arrest = filtered_df['fir_to_arrest'].mean()`. -/
def avgFirArrest (rs : List Record) : Option ℚ :=
  seriesMean (rs.map firToArrest)

/-- `avg_arrest_cs = filtered_df['arrest_to_chargesheet'].mean()`. -/
def avgArrestCs (rs : List Record) : Option ℚ :=
  seriesMean (rs.map arrestToChargesheet)

/-- The present (non-missing) entries of a series, in order. -/
def presentVals (vals : List (Option Int)) : List Int :=
  vals.filterMap id

lemma meanAcc_eq (vals : List (Option Int)) :
    meanAcc vals = ((presentVals vals).sum, (presentVals vals).length) := by
  induction vals with
  | nil => rfl
  | cons head tail ih =>
    cases head with
    | none => simpa [meanAcc, presentVals] using ih
    | some v => simp [meanAcc, presentVals, ih, Int.add_comm]

lemma seriesMean_eq (vals : List (Option Int)) (h : presentVals vals ≠ []) :
    seriesMean vals =
      some (((presentVals vals).sum : ℚ) / ((presentVals vals).length : ℚ)) := by
  rw [seriesMean, meanAcc_eq]
  simp [List.length_eq_zero, h]

/-- **C2** — The two aggregate lag means skip missing per-record lags in
both numerator and denominator: whenever at least one record has a defined
lag, the mean is the sum of the defined lag values divided by their number
(not by the number of records); and the series `[5, missing, 15]` has mean
10. -/
theorem C2_mean_skips_missing (rs : List Record)
    (h1 : presentVals (rs.map firToArrest) ≠ [])
    (h2 : presentVals (rs.map arrestToChargesheet) ≠ []) :
    avgFirArrest rs =
      some (((presentVals (rs.map firToArrest)).sum : ℚ) /
        ((presentVals (rs.map firToArrest)).length : ℚ)) ∧
    avgArrestCs rs =
      some (((presentVals (rs.map arrestToChargesheet)).sum : ℚ) /
        ((presentVals (rs.map arrestToChargesheet)).length : ℚ)) ∧
    seriesMean [some 5, none, some 15] = some 10 := by
  refine ⟨seriesMean_eq _ h1, seriesMean_eq _ h2, ?_⟩
  norm_num [seriesMean, meanAcc]

/-- The concrete dataset of the C2 witness: lags 5, missing, 15. -/
def rsC2 : List Record :=
  [⟨1, some "F1", some "S1", some "Theft", some ⟨2024, 1, 1⟩, some ⟨2024, 1, 6⟩,
     some ⟨2024, 1, 11⟩, some "Yes", some "Yes", none, none⟩,
   ⟨2, some "F2", some "S1", some "Theft", some ⟨2024, 1, 1⟩, none, none, some "No",
     some "No", none, none⟩,
   ⟨3, some "F3", some "S1", some "Theft", some ⟨2024, 1, 1⟩, some ⟨2024, 1, 16⟩,
     some ⟨2024, 2, 10⟩, some "Yes", some "Yes", none, none⟩]

/-- Closed witness for C2: on `rsC2` the FIR-to-arrest lags are
`[5, missing, 15]` and both means are defined-values-only quotients. -/
theorem C2_witness :
    avgFirArrest rsC2 =
      some (((presentVals (rsC2.map firToArrest)).sum : ℚ) /
        ((presentVals (rsC2.map firToArrest)).length : ℚ)) ∧
    avgArrestCs rsC2 =
      some (((presentVals (rsC2.map arrestToChargesheet)).sum : ℚ) /
        ((presentVals (rsC2.map arrestToChargesheet)).length : ℚ)) ∧
    seriesMean [some 5, none, some 15] = some 10 :=
  C2_mean_skips_missing rsC2 (by decide) (by decide)

/-- Prefix test on character lists (`needle` against the head of the
list). -/
def prefEq : List Char → List Char → Bool
  | [], _ => true
  | _ :: _, [] => false
  | a :: as, b :: bs => a == b && prefEq as bs

/-- Substring test on character lists. -/
def hasSub (needle : List Char) : List Char → Bool
  | [] => needle.isEmpty
  | b :: bs => prefEq needle (b :: bs) || hasSub needle bs

/-- Case-insensitive substring containment:
`series.str.contains(q, case=False)` for a plain (regex-metacharacter-free)
pattern `q` — `str.contains` treats its pattern as a regular expression,
and on plain patterns regex search is substring containment. -/
def containsCI (hay q : String) : Bool :=
  hasSub (q.data.map Char.toLower) (hay.data.map Char.toLower)

/-- `df['fir_number'].astype(str)`: a missing FIR number is rendered as the
string `"nan"`. -/
def firAsStr (r : Record) : String :=
  match r.fir_number with
  | some s => s
  | none => "nan"

/-- `search_result`: the rows whose FIR number, as a string, contains the
query case-insensitively. -/
def searchFir (q : String) (rs : List Record) : List Record :=
  rs.filter (fun r => containsCI (firAsStr r) q)

/-- A query with no regex metacharacters (alphanumeric characters only). -/
def plainQuery (q : String) : Bool :=
  q.data.all (fun c => c.isAlphanum)

/-- The record set the page is rendered from: a non-empty search string
(`if search_fir:`) switches the view to search mode, which reads the
unfiltered dataframe and stops before the standard pipeline. -/
def viewRecords (q : String) (c : Criteria) (rs : List Record) : List Record :=
  if q = "" then filteredDf c rs else searchFir q rs

/-- A record with a null FIR number, for the C1 counterexample. -/
def rNullFir : Record :=
  ⟨7, none, some "S1", some "Theft", some ⟨2024, 1, 1⟩, none, none, none, none, none,
    none⟩

/-- **C1 counterexample** — A record with a null `fir_number` is *not*
excluded from search mode for every query: `astype(str)` renders the
missing value as the string `"nan"`, so the query `"nan"` matches it. -/
theorem C1_counterexample :
    rNullFir.fir_number = none ∧ rNullFir ∈ searchFir "nan" [rNullFir] := by
  decide

/-- **C1 amended** — For every non-empty plain (regex-metacharacter-free)
query, search mode returns exactly the records whose FIR number *as a
string* (a missing value rendered `"nan"`) contains the query
case-insensitively, and no station, crime-type or date-range criterion
affects the result. -/
theorem C1_search_mode (q : String) (c c' : Criteria) (rs : List Record) (r : Record)
    (hq : q ≠ "") (_hplain : plainQuery q = true) :
    (r ∈ viewRecords q c rs ↔ r ∈ rs ∧ containsCI (firAsStr r) q = true) ∧
    viewRecords q c rs = viewRecords q c' rs := by
  rw [viewRecords, if_neg hq, viewRecords, if_neg hq]
  refine ⟨?_, rfl⟩
  simp [searchFir, List.mem_filter]

/-- Closed witness for C1: a record outside the selected stations still
appears in search mode (criteria-independence), and matching is
case-insensitive (`"fir12"` against `"FIR123"`). -/
theorem C1_witness :
    let rOut : Record :=
      ⟨3, some "FIR123", some "S9", some "Theft", some ⟨2024, 1, 1⟩, none, none, none,
        none, none, none⟩
    let c1 : Criteria := ⟨⟨2024, 1, 1⟩, ⟨2024, 12, 31⟩, ["S1"], ["Theft"]⟩
    let c2 : Criteria := ⟨⟨2020, 1, 1⟩, ⟨2020, 12, 31⟩, [], []⟩
    (rOut ∈ viewRecords "fir12" c1 [rOut] ↔
        rOut ∈ [rOut] ∧ containsCI (firAsStr rOut) "fir12" = true) ∧
      viewRecords "fir12" c1 [rOut] = viewRecords "fir12" c2 [rOut] := by
  intro rOut c1 c2
  exact C1_search_mode "fir12" c1 c2 [rOut] rOut (by decide) (by decide)

/-- `location_str.split(',')` on the underlying characters. -/
def splitComma : List Char → List (List Char)
  | [] => [[]]
  | c :: rest =>
    match splitComma rest with
    | [] => [[]]
    | part :: parts =>
      if c == ',' then [] :: part :: parts else (c :: part) :: parts

/-- Whether `float(s)` accepts the characters of a part: an optional sign
followed by digits with at most one decimal point and at least one digit
(the plain decimal literals of coordinate data; `float` additionally
accepts forms such as exponents that never arise here). -/
def numericCore (cs : List Char) : Bool :=
  (cs.all fun c => c.isDigit || c == '.') &&
  (cs.countP (fun c => c == '.') ≤ 1) &&
  (cs.any fun c => c.isDigit)

/-- `float(part)` acceptance including an optional leading sign. -/
def isNumericStr (cs : List Char) : Bool :=
  match cs with
  | '+' :: rest => numericCore rest
  | '-' :: rest => numericCore rest
  | rest => numericCore rest

/-- `lat, lon = map(float, location_str.split(','))`: succeeds only on
exactly two comma-separated numeric parts; the `except: continue` turns
every failure into a skipped row. -/
def parseLocation (s : String) : Option (List Char × List Char) :=
  match splitComma s.data with
  | [a, b] => if isNumericStr a && isNumericStr b then some (a, b) else none
  | _ => none

/-- Whether a row yields a map marker: a present, parseable location. -/
def hasMarker (r : Record) : Bool :=
  match r.location with
  | some s => (parseLocation s).isSome
  | none => false

/-- The rows that contribute markers to the folium map (the marker loop
over `filtered_df`, skipping rows with a missing or unparseable
location). -/
def mapRecords (rs : List Record) : List Record :=
  rs.filter hasMarker

/-- `series.value_counts()` as multiset content: the distinct non-missing
values of a column with their multiplicities (pandas additionally orders
the output by descending count, which no claim here depends on). -/
def valueCounts (f : Record → Option String) (rs : List Record) : List (String × Nat) :=
  ((rs.filterMap f).dedup).map (fun v => (v, (rs.filterMap f).count v))

/-- `filtered_df['season']`: the month of `date_reported` mapped through
`season_map`. -/
def seasonVal (r : Record) : Option String :=
  r.date_reported.bind (fun d => seasonOf d.month)

/-- The malformed-location, null-status record of the C8 counterexample. -/
def rMalformedLoc : Record :=
  ⟨9, some "F9", some "S1", some "Theft", some ⟨2024, 1, 1⟩, none, none, none, none,
    none, some "not,a,coord"⟩

/-- The criteria under which `rMalformedLoc` passes the standard filter. -/
def cC8 : Criteria :=
  ⟨⟨2024, 1, 1⟩, ⟨2024, 12, 31⟩, ["S1"], ["Theft"]⟩

/-- **C8 counterexample** — "present in every category-count aggregation"
fails: a malformed-location record with a null `status` is in the filtered
set and absent from the map, yet the status aggregation of that same set is
empty, because null category values are dropped from grouped output. -/
theorem C8_counterexample :
    rMalformedLoc ∈ filteredDf cC8 [rMalformedLoc] ∧
      rMalformedLoc ∉ mapRecords (filteredDf cC8 [rMalformedLoc]) ∧
      valueCounts Record.status (filteredDf cC8 [rMalformedLoc]) = [] := by
  decide

/-- **C8 amended** — A record whose `location` is missing or not exactly
two comma-separated numeric values is absent from the map-marker output;
processing it never aborts the batch (the markers of the surrounding
records are exactly those computed without it); and it still contributes
to every category-count aggregation on which its own category value is
present — null category values are dropped from grouped output, the only
departure from the claim as stated. -/
theorem C8_malformed_location_map_only (rs pre post : List Record) (r : Record)
    (hbad : r.location = none ∨ ∃ s, r.location = some s ∧ parseLocation s = none) :
    r ∉ mapRecords rs ∧
    mapRecords (pre ++ r :: post) = mapRecords pre ++ mapRecords post ∧
    (∀ (f : Record → Option String) (v : String), f r = some v → r ∈ rs →
      ∃ k, (v, k) ∈ valueCounts f rs ∧ 1 ≤ k) := by
  have hmask : hasMarker r = false := by
    rcases hbad with h | ⟨s, hs, hp⟩
    · rw [hasMarker, h]
    · simp [hasMarker, hs, hp]
  refine ⟨?_, ?_, ?_⟩
  · intro hmem
    rcases List.mem_filter.mp hmem with ⟨-, hk⟩
    rw [hmask] at hk
    exact Bool.false_ne_true hk
  · simp [mapRecords, List.filter_append, List.filter_cons, hmask]
  · intro f v hfv hmem
    have hv : v ∈ rs.filterMap f := List.mem_filterMap.mpr ⟨r, hmem, hfv⟩
    refine ⟨(rs.filterMap f).count v, ?_, ?_⟩
    · simp only [valueCounts]
      exact List.mem_map.mpr ⟨v, List.mem_dedup.mpr hv, rfl⟩
    · exact List.count_pos_iff.mpr hv

/-- Closed witness for C8: a malformed-location record with present
category values is absent from the map but contributes to the status and
season aggregations. -/
theorem C8_witness :
    let rGood : Record :=
      ⟨9, some "F9", some "S1", some "Theft", some ⟨2024, 1, 1⟩, none, none, none, none,
        some "Open", some "not,a,coord"⟩
    rGood ∉ mapRecords [rGood] ∧
      mapRecords ([] ++ rGood :: []) = mapRecords [] ++ mapRecords [] ∧
      (∃ k, ("Open", k) ∈ valueCounts Record.status [rGood] ∧ 1 ≤ k) ∧
      (∃ k, ("Winter", k) ∈ valueCounts seasonVal [rGood] ∧ 1 ≤ k) := by
  intro rGood
  have h := C8_malformed_location_map_only [rGood] [] [] rGood
    (Or.inr ⟨"not,a,coord", rfl, by decide⟩)
  exact ⟨h.1, h.2.1, h.2.2 Record.status "Open" rfl (by decide),
    h.2.2 seasonVal "Winter" (by decide) (by decide)⟩

/-- Non-strict lexicographic order on code-point lists: how pandas compares
the label strings when sorting group keys. -/
def codesLe : List Nat → List Nat → Bool
  | [], _ => true
  | _ :: _, [] => false
  | a :: as, b :: bs => decide (a < b) || (a == b && codesLe as bs)

/-- Strict lexicographic order on code-point lists. -/
def codesLt : List Nat → List Nat → Bool
  | [], [] => false
  | [], _ :: _ => true
  | _ :: _, [] => false
  | a :: as, b :: bs => decide (a < b) || (a == b && codesLt as bs)

/-- The code points of a string. -/
def strCodes (s : String) : List Nat :=
  s.data.map Char.toNat

/-- `str(period)` for a month period — `"YYYY-MM"`, year zero-padded to
four digits, month to two (`dt.to_period("M").astype(str)`) — as its
code-point list (48 is `'0'`, 45 is `'-'`). -/
def renderYM (y m : Nat) : List Nat :=
  [48 + y / 1000 % 10, 48 + y / 100 % 10, 48 + y / 10 % 10, 48 + y % 10,
   45, 48 + m / 10 % 10, 48 + m % 10]

/-- `filtered_df['month_year']`: the month period of `date_reported` as a
string; a missing date stringifies to `"NaT"` (codes 78, 97, 84). -/
def monthYearStr (r : Record) : List Nat :=
  match r.date_reported with
  | some d => renderYM d.year d.month
  | none => [78, 97, 84]

/-- The `(month_year, crime_type)` grouping key of each row; rows with a
missing `crime_type` are dropped (groupby drops null keys). -/
def trendKeys (rs : List Record) : List (List Nat × String) :=
  rs.filterMap (fun r => r.crime_type.map (fun ct => (monthYearStr r, ct)))

/-- groupby's ascending order on `(month_year, crime_type)` keys:
by month-year label first, ties by crime type. -/
def keyLe (a b : List Nat × String) : Prop :=
  (codesLt a.1 b.1 || (a.1 == b.1 && codesLe (strCodes a.2) (strCodes b.2))) = true

instance : DecidableRel keyLe :=
  fun _ _ => inferInstanceAs (Decidable (_ = true))

/-- `monthly_counts = filtered_df.groupby(['month_year', 'crime_type']).size()`:
the distinct keys in ascending key order (groupby's default `sort=True`),
each with its row count. -/
def monthlyCounts (rs : List Record) : List ((List Nat × String) × Nat) :=
  (List.insertionSort keyLe (trendKeys rs).dedup).map
    (fun k => (k, (trendKeys rs).count k))

lemma codesLe_refl (a : List Nat) : codesLe a a = true := by
  induction a with
  | nil => rfl
  | cons x xs ih => simp [codesLe, ih]

lemma codesLt_le {a : List Nat} : ∀ {b}, codesLt a b = true → codesLe a b = true := by
  induction a with
  | nil => intro b _; cases b <;> rfl
  | cons x xs ih =>
    intro b h
    cases b with
    | nil => exact absurd h (by simp [codesLt])
    | cons y ys =>
      simp [codesLt] at h
      simp [codesLe]
      rcases h with h | ⟨rfl, h⟩
      · exact Or.inl h
      · exact Or.inr ⟨rfl, ih h⟩

lemma codesLt_trichotomy (a : List Nat) :
    ∀ b, codesLt a b = true ∨ a = b ∨ codesLt b a = true := by
  induction a with
  | nil => intro b; cases b <;> simp [codesLt]
  | cons x xs ih =>
    intro b
    cases b with
    | nil => simp [codesLt]
    | cons y ys =>
      rcases Nat.lt_trichotomy x y with hxy | rfl | hxy
      · exact Or.inl (by simp [codesLt, hxy])
      · rcases ih ys with h | rfl | h
        · exact Or.inl (by simp [codesLt, h])
        · exact Or.inr (Or.inl rfl)
        · exact Or.inr (Or.inr (by simp [codesLt, h]))
      · exact Or.inr (Or.inr (by simp [codesLt, hxy]))

lemma codesLt_trans {a : List Nat} :
    ∀ {b c}, codesLt a b = true → codesLt b c = true → codesLt a c = true := by
  induction a with
  | nil =>
    intro b c h1 h2
    cases b with
    | nil => exact absurd h1 (by simp [codesLt])
    | cons y ys =>
      cases c with
      | nil => exact absurd h2 (by simp [codesLt])
      | cons z zs => simp [codesLt]
  | cons x xs ih =>
    intro b c h1 h2
    cases b with
    | nil => exact absurd h1 (by simp [codesLt])
    | cons y ys =>
      cases c with
      | nil => exact absurd h2 (by simp [codesLt])
      | cons z zs =>
        simp [codesLt] at h1 h2 ⊢
        rcases h1 with h1 | ⟨rfl, h1⟩
        · rcases h2 with h2 | ⟨rfl, h2⟩
          · exact Or.inl (Nat.lt_trans h1 h2)
          · exact Or.inl h1
        · rcases h2 with h2 | ⟨rfl, h2⟩
          · exact Or.inl h2
          · exact Or.inr ⟨rfl, ih h1 h2⟩

lemma codesLe_trans {a : List Nat} :
    ∀ {b c}, codesLe a b = true → codesLe b c = true → codesLe a c = true := by
  induction a with
  | nil => intro b c _ _; rfl
  | cons x xs ih =>
    intro b c h1 h2
    cases b with
    | nil => exact absurd h1 (by simp [codesLe])
    | cons y ys =>
      cases c with
      | nil => exact absurd h2 (by simp [codesLe])
      | cons z zs =>
        simp [codesLe] at h1 h2 ⊢
        rcases h1 with h1 | ⟨rfl, h1⟩
        · rcases h2 with h2 | ⟨rfl, h2⟩
          · exact Or.inl (Nat.lt_trans h1 h2)
          · exact Or.inl h1
        · rcases h2 with h2 | ⟨rfl, h2⟩
          · exact Or.inl h2
          · exact Or.inr ⟨rfl, ih h1 h2⟩

lemma codesLe_total (a : List Nat) : ∀ b, codesLe a b = true ∨ codesLe b a = true := by
  induction a with
  | nil => intro b; left; rfl
  | cons x xs ih =>
    intro b
    cases b with
    | nil => right; rfl
    | cons y ys =>
      rcases Nat.lt_trichotomy x y with h | rfl | h
      · left; simp [codesLe, h]
      · rcases ih ys with h | h
        · left; simp [codesLe, h]
        · right; simp [codesLe, h]
      · right; simp [codesLe, h]

instance : IsTotal (List Nat × String) keyLe where
  total := by
    rintro ⟨a1, a2⟩ ⟨b1, b2⟩
    rcases codesLt_trichotomy a1 b1 with h | rfl | h
    · left; simp [keyLe, h]
    · rcases codesLe_total (strCodes a2) (strCodes b2) with hs | hs
      · left; simp [keyLe, hs]
      · right; simp [keyLe, hs]
    · right; simp [keyLe, h]

instance : IsTrans (List Nat × String) keyLe where
  trans := by
    rintro ⟨a1, a2⟩ ⟨b1, b2⟩ ⟨c1, c2⟩ h1 h2
    simp [keyLe] at h1 h2 ⊢
    rcases h1 with h1 | ⟨rfl, h1⟩
    · rcases h2 with h2 | ⟨rfl, h2⟩
      · exact Or.inl (codesLt_trans h1 h2)
      · exact Or.inl h1
    · rcases h2 with h2 | ⟨rfl, h2⟩
      · exact Or.inl h2
      · exact Or.inr ⟨rfl, codesLe_trans h1 h2⟩

lemma keyLe_fst {a b : List Nat × String} (h : keyLe a b) : codesLe a.1 b.1 = true := by
  simp [keyLe] at h
  rcases h with h | ⟨h, -⟩
  · exact codesLt_le h
  · rw [h]
    exact codesLe_refl _

lemma renderLe_calendar {y1 m1 y2 m2 : Nat} (hy1 : y1 < 10000) (hy2 : y2 < 10000)
    (hm1 : m1 ≤ 12) (hm2 : m2 ≤ 12)
    (h : codesLe (renderYM y1 m1) (renderYM y2 m2) = true) :
    y1 < y2 ∨ (y1 = y2 ∧ m1 ≤ m2) := by
  simp [renderYM, codesLe] at h
  omega

/-- **C3** — The monthly-trend groups come out in calendar order: if
positions `i < j` of `monthly_counts` carry the rendered labels of the
calendar months `(y1, m1)` and `(y2, m2)` (four-digit years, valid
months), then `(y1, m1)` is calendar-earlier-or-equal — the `"YYYY-MM"`
labels make groupby's ascending string sort coincide with calendar order
(Feb-2023 before Jan-2024). -/
theorem C3_trend_chronological (rs : List Record) (i j : Nat)
    (hi : i < (monthlyCounts rs).length) (hj : j < (monthlyCounts rs).length)
    (hij : i < j) (y1 m1 y2 m2 : Nat)
    (hy1 : y1 < 10000) (hy2 : y2 < 10000) (hm1 : m1 ≤ 12) (hm2 : m2 ≤ 12)
    (hk1 : ((monthlyCounts rs).get ⟨i, hi⟩).1.1 = renderYM y1 m1)
    (hk2 : ((monthlyCounts rs).get ⟨j, hj⟩).1.1 = renderYM y2 m2) :
    y1 < y2 ∨ (y1 = y2 ∧ m1 ≤ m2) := by
  have hsorted : (List.insertionSort keyLe (trendKeys rs).dedup).Pairwise keyLe :=
    List.sorted_insertionSort keyLe ((trendKeys rs).dedup)
  have hsorted2 : (monthlyCounts rs).Pairwise (fun a b => keyLe a.1 b.1) := by
    simp only [monthlyCounts]
    exact List.pairwise_map.mpr hsorted
  have hrel := List.pairwise_iff_get.mp hsorted2 ⟨i, hi⟩ ⟨j, hj⟩ hij
  have hle := keyLe_fst hrel
  rw [hk1, hk2] at hle
  exact renderLe_calendar hy1 hy2 hm1 hm2 hle

/-- The concrete dataset of the C3 witness: a Jan-2024 record listed before
a Feb-2023 record. -/
def rsC3 : List Record :=
  [⟨1, some "F1", some "S1", some "Theft", some ⟨2024, 1, 7⟩, none, none, none, none,
     none, none⟩,
   ⟨2, some "F2", some "S1", some "Theft", some ⟨2023, 2, 5⟩, none, none, none, none,
     none, none⟩]

/-- Closed witness for C3: on `rsC3` the trend table has the Feb-2023 group
first and the Jan-2024 group second, although the input order was the
reverse, and the theorem instantiates there. -/
theorem C3_witness :
    (monthlyCounts rsC3).length = 2 ∧
    ((monthlyCounts rsC3).get ⟨0, by decide⟩).1.1 = renderYM 2023 2 ∧
    ((monthlyCounts rsC3).get ⟨1, by decide⟩).1.1 = renderYM 2024 1 ∧
    (2023 < 2024 ∨ (2023 = 2024 ∧ 2 ≤ 1)) :=
  ⟨by decide, by decide, by decide,
    C3_trend_chronological rsC3 0 1 (by decide) (by decide) (by decide) 2023 2 2024 1
      (by decide) (by decide) (by decide) (by decide) (by decide) (by decide)⟩
